import Mathlib

/-!
Shallow embedding of the swapsies quote-to-gain/loss reconciliation code
(src/routes/index.tsx, src/lib/cost-basis.ts, the getWalletHoldings server
function) together with theorems settling the specification claims.

JavaScript numbers are modelled as exact rationals; the one place where the
code can divide by zero (the gain/loss percentage) is modelled with a value
type `JSVal` that carries the JavaScript infinities and NaN, so that the
division-by-zero behaviour of the source is represented faithfully.
JavaScript `undefined`/`null` is modelled with `Option`; the truthiness
tests of the source (`!quote.transaction`, `solPrice &&`, a non-empty
string) are translated at each use site to the corresponding test on the
modelled value.
-/

namespace Swapsies

/-- JavaScript number results: a rational, one of the two infinities, or NaN.
Used where the source can actually produce a non-finite value. -/
inductive JSVal where
  | num (q : ℚ)
  | posInf
  | negInf
  | nan
deriving DecidableEq

/-- JavaScript division `a / b` on finite operands: ordinary division when
the denominator is non-zero, otherwise an infinity or NaN by the sign of
the numerator. -/
def jsDiv (a b : ℚ) : JSVal :=
  if b ≠ 0 then .num (a / b)
  else if 0 < a then .posInf
  else if a < 0 then .negInf
  else .nan

/-- JavaScript multiplication of a number result by the positive constant 100,
as in `x * 100`: infinities and NaN are preserved. -/
def jsMul100 : JSVal → JSVal
  | .num q => .num (q * 100)
  | .posInf => .posInf
  | .negInf => .negInf
  | .nan => .nan

/-- A token as returned by the token search (types/jupiter.ts, JupiterToken);
only the fields the calculators read. -/
structure JupiterToken where
  address : String
  symbol : String
  decimals : ℕ
  usdPrice : Option ℚ
deriving DecidableEq

/-- A quote (types/jupiter.ts, JupiterOrderResponse) restricted to the fields
read by the calculators in index.tsx. The three fee-payer fields are read by
index.tsx as `string | undefined`, modelled as `Option String`. -/
structure JupiterOrderResponse where
  inAmount : ℕ
  outAmount : ℕ
  feeMint : String
  feeBps : ℚ
  gasless : Bool
  signatureFeeLamports : ℚ
  prioritizationFeeLamports : ℚ
  rentFeeLamports : ℚ
  signatureFeePayer : Option String
  prioritizationFeePayer : Option String
  rentFeePayer : Option String
  inUsdValue : ℚ
  outUsdValue : ℚ
  priceImpact : ℚ
  transaction : Option String
  errorCode : Option String
deriving DecidableEq

/-- The `userFeeLamports` memo of index.tsx: `0` when there is no quote,
`null` when the quote has no transaction or there is no connected account,
`null` when all three fee-payer fields are falsy, otherwise the sum of the
fee components whose payer strictly equals the account address. The
JavaScript strict equality `quote.signatureFeePayer === account?.address`
is `Option` equality here (both `undefined` compares true). -/
def userFeeLamports (quote : Option JupiterOrderResponse)
    (account : Option String) : Option ℚ :=
  match quote with
  | none => some 0
  | some q =>
    match q.transaction, account with
    | some _, some addr =>
      if q.signatureFeePayer = none ∧ q.prioritizationFeePayer = none ∧
          q.rentFeePayer = none then
        none
      else
        some ((if q.signatureFeePayer = some addr then q.signatureFeeLamports else 0)
          + (if q.prioritizationFeePayer = some addr then q.prioritizationFeeLamports else 0)
          + (if q.rentFeePayer = some addr then q.rentFeeLamports else 0))
    | _, _ => none

/-- The record returned by the `costBreakdown` memo of index.tsx. -/
structure CostBreakdown where
  platformFeeBps : ℚ
  platformFeePct : ℚ
  feeTokenName : Option String
  isInputFee : Bool
  networkFeeSol : ℚ
  networkFeeUsd : ℚ
  networkFeeKnown : Bool
  isGasless : Bool
  swapValueChange : ℚ
  totalCost : ℚ
  totalCostPct : ℚ
  priceImpact : ℚ
deriving DecidableEq

/-- The `costBreakdown` memo of index.tsx (lines 266 to 336): `null` without a
quote, otherwise the full record. `solPrice` is `solTokenData?.[0]?.usdPrice
?? null`; its JavaScript truthiness test `solPrice &&` is false for `null`
and for `0`. The fee-payer comparisons are strict equality against
`account?.address`, modelled as `Option` equality. -/
def costBreakdown (quote : Option JupiterOrderResponse)
    (inputToken outputToken : Option JupiterToken)
    (account : Option String) (solPrice : Option ℚ) : Option CostBreakdown :=
  match quote with
  | none => none
  | some q =>
    let isInputFee := match inputToken with
      | some t => q.feeMint = t.address
      | none => false
    let feeTokenName := if isInputFee then inputToken.map (fun t => t.symbol)
      else outputToken.map (fun t => t.symbol)
    let userNetworkFeeLamports :=
      (if q.signatureFeePayer = account then q.signatureFeeLamports else 0)
      + (if q.prioritizationFeePayer = account then q.prioritizationFeeLamports else 0)
      + (if q.rentFeePayer = account then q.rentFeeLamports else 0)
    let networkFeeKnown : Bool :=
      q.signatureFeePayer ≠ none ∧ q.prioritizationFeePayer ≠ none ∧
        q.rentFeePayer ≠ none
    let networkFeeSol := if 0 < userNetworkFeeLamports
      then userNetworkFeeLamports / 10 ^ 9 else 0
    let networkFeeUsd := match solPrice with
      | some p => if 0 < networkFeeSol ∧ p ≠ 0 then networkFeeSol * p else 0
      | none => 0
    let swapValueChange := q.outUsdValue - q.inUsdValue
    let totalCost := swapValueChange + networkFeeUsd
    let totalCostPct := if 0 < q.inUsdValue then totalCost / q.inUsdValue * 100 else 0
    let isGasless := q.gasless && decide (userNetworkFeeLamports = 0)
    some {
      platformFeeBps := q.feeBps
      platformFeePct := q.feeBps / 100
      feeTokenName := feeTokenName
      isInputFee := isInputFee
      networkFeeSol := networkFeeSol
      networkFeeUsd := networkFeeUsd
      networkFeeKnown := networkFeeKnown
      isGasless := isGasless
      swapValueChange := swapValueChange
      totalCost := totalCost
      totalCostPct := totalCostPct
      priceImpact := q.priceImpact
    }

/-- A stored cost basis record (lib/cost-basis.ts, StoredCostBasis). -/
structure StoredCostBasis where
  tokenAddress : String
  costBasisUSD : ℚ
  tokenName : String
  tokenSymbol : String
deriving DecidableEq

/-- The record returned by the `costBasisMetrics` memo of index.tsx. The
percentage field carries a `JSVal` because the source divides by
`totalCostBasis` without a zero guard. -/
structure CostBasisMetrics where
  costBasisPerToken : ℚ
  totalCostBasis : ℚ
  realizedGainLoss : ℚ
  gainLossPercentage : JSVal
deriving DecidableEq

/-- The `costBasisMetrics` memo of index.tsx (lines 339 to 358): `null`
without a cost basis record, a quote, or a parseable positive amount;
otherwise the metrics record. `debouncedAmount` is modelled already parsed:
`none` stands for the empty string or a NaN parse, `some a` for a parsed
number `a` (still subject to the `amountNum <= 0` rejection, as in the
source). `fees` is `costBreakdown?.networkFeeUsd ?? 0`. -/
def costBasisMetrics (inputTokenCostBasis : Option StoredCostBasis)
    (quote : Option JupiterOrderResponse) (debouncedAmount : Option ℚ)
    (breakdown : Option CostBreakdown) : Option CostBasisMetrics :=
  match inputTokenCostBasis, quote, debouncedAmount with
  | some cb, some q, some amountNum =>
    if amountNum ≤ 0 then none
    else
      let costBasisPerToken := cb.costBasisUSD
      let totalCostBasis := costBasisPerToken * amountNum
      let fees := (breakdown.map (fun b => b.networkFeeUsd)).getD 0
      let realizedGainLoss := q.outUsdValue - fees - totalCostBasis
      let gainLossPercentage := jsMul100 (jsDiv realizedGainLoss totalCostBasis)
      some {
        costBasisPerToken := costBasisPerToken
        totalCostBasis := totalCostBasis
        realizedGainLoss := realizedGainLoss
        gainLossPercentage := gainLossPercentage
      }
  | _, _, _ => none

/-- The `nativeAmount` memo of index.tsx (lines 171 to 176): `null` for an
empty or unparseable amount, a missing input token, or a non-positive parsed
amount; otherwise the string rendering of
`Math.floor(amountNum * 10 ** decimals)`. As in `costBasisMetrics`, the
amount is modelled already parsed. -/
def nativeAmount (debouncedAmount : Option ℚ)
    (inputToken : Option JupiterToken) : Option String :=
  match debouncedAmount, inputToken with
  | some amountNum, some tok =>
    if amountNum ≤ 0 then none
    else some (toString (Int.floor (amountNum * 10 ^ tok.decimals)))
  | _, _ => none

/-- JavaScript truthiness of a `string | null` value: `null` and the empty
string are falsy. -/
def strTruthy : Option String → Bool
  | none => false
  | some s => s ≠ ""

/-- The `enabled` condition of the quote query in index.tsx (line 206):
`!!(inputToken && outputToken && nativeAmount)`, where `nativeAmount` is the
string produced by the `nativeAmount` memo. The quote request is issued
exactly when this is true. -/
def quoteEnabled (inputToken outputToken : Option JupiterToken)
    (na : Option String) : Bool :=
  inputToken.isSome && outputToken.isSome && strTruthy na

/-- First-match lookup in an association list, the model of a JavaScript
object property read `data[key]` (a well-formed object has distinct keys). -/
def assocLookup {α : Type} (k : String) : List (String × α) → Option α
  | [] => none
  | (k2, v) :: rest => if k2 = k then some v else assocLookup k rest

/-- The observable state of the browser storage behind
`localStorage.getItem(COST_BASIS_STORAGE_KEY)` followed by `JSON.parse`:
the read itself can throw (storage unavailable), return `null` (no entry),
return a string `JSON.parse` throws on (malformed), or return a string
encoding a record of cost basis entries. -/
inductive StorageState where
  | unavailable
  | empty
  | malformed
  | stored (entries : List (String × StoredCostBasis))

/-- `getCostBasisData` of lib/cost-basis.ts: the whole read is wrapped in
try/catch, so a throwing read or a parse failure yields the empty record
`\x7b\x7d`, as does a missing entry; a valid stored record is returned as is. -/
def getCostBasisData : StorageState → List (String × StoredCostBasis)
  | .unavailable => []
  | .empty => []
  | .malformed => []
  | .stored entries => entries

/-- `getCostBasisForToken` of lib/cost-basis.ts:
`getCostBasisData()[tokenAddress] || null`. -/
def getCostBasisForToken (storage : StorageState)
    (tokenAddress : String) : Option StoredCostBasis :=
  assocLookup tokenAddress (getCostBasisData storage)

/-- The wrapped-SOL mint address used by `getWalletHoldings`. -/
def solMint : String := "So11111111111111111111111111111111111111112"

/-- `Map.set` with read-modify-write as in the holdings loop of
`getWalletHoldings`: `map.set(k, (map.get(k) ?? 0n) + v)`. A JavaScript Map
keeps the original position of an updated key and appends a new key at the
end. -/
def mapInsertAdd (m : List (String × ℕ)) (k : String) (v : ℕ) :
    List (String × ℕ) :=
  match m with
  | [] => [(k, v)]
  | (k2, v2) :: rest =>
    if k2 = k then (k2, v2 + v) :: rest else (k2, v2) :: mapInsertAdd rest k v

/-- The body of the holdings loop of `getWalletHoldings`: for one mint, sum
the amounts of its token accounts and add that total into the map. -/
def holdingsStep (m : List (String × ℕ)) (p : String × List ℕ) :
    List (String × ℕ) :=
  mapInsertAdd m p.1 p.2.sum

/-- `getWalletHoldings` aggregation (lib server function, lines 338 to 367):
start the map with the native SOL balance under the wrapped-SOL mint, then
for each mint of the holdings response add the sum of the amounts of its
token accounts into the map, summing with any existing entry. The input
`tokens` lists, per mint, the amounts of its token accounts, in the object
iteration order of the response. -/
def getWalletHoldings (nativeSolAmount : ℕ)
    (tokens : List (String × List ℕ)) : List (String × ℕ) :=
  tokens.foldl holdingsStep [(solMint, nativeSolAmount)]

/-- Modes of the token selection modal in index.tsx. -/
inductive TokenSelectMode where
  | input
  | output
deriving DecidableEq

/-- The `useState` atoms of the SwapPage component of index.tsx. -/
structure SwapPageState where
  inputToken : Option JupiterToken
  outputToken : Option JupiterToken
  amount : String
  debouncedAmount : String
  selectMode : Option TokenSelectMode
deriving DecidableEq

/-- `handleSwapTokens` of index.tsx (lines 164 to 168): exchange the input
and output token selections; no other state setter is called. -/
def handleSwapTokens (s : SwapPageState) : SwapPageState :=
  { s with inputToken := s.outputToken, outputToken := s.inputToken }

/-- Modelled from the spec: the `totalCostPercent` rule as §4.3 words it,
`inputValueUSD > 0 ? totalCostUSD / inputValueUSD * 100 : undefined` — an
explicit sentinel (`none`), not a number, when the input value is zero.
Kept separate from `costBreakdown` so the two can be compared. -/
def totalCostPctSpec (totalCostUSD inputValueUSD : ℚ) : Option ℚ :=
  if 0 < inputValueUSD then some (totalCostUSD / inputValueUSD * 100) else none

/-- Connected wallet address used in the concrete scenarios. -/
def userAddr : String := "UserWa11etAddress1111111111111111111111111111"

/-- Scenario input token X: 6 decimals. -/
def tokenX : JupiterToken :=
  { address := "TokenX1111111111111111111111111111111111111"
    symbol := "TKX"
    decimals := 6
    usdPrice := some 20 }

/-- Scenario output token Y: 9 decimals. -/
def tokenY : JupiterToken :=
  { address := "TokenY1111111111111111111111111111111111111"
    symbol := "TKY"
    decimals := 9
    usdPrice := some (397 / 20) }

/-- The Scenario A quote: 10 units of token X (native amount 10000000 at
6 decimals), inUsdValue 200, outUsdValue 198.50, all three network fee
components attributed, 500000 lamports of signature fee paid by the user
(0.0005 SOL, 0.05 USD at a SOL price of 100). -/
def scenarioAQuote : JupiterOrderResponse :=
  { inAmount := 10000000
    outAmount := 10000000000
    feeMint := "TokenY1111111111111111111111111111111111111"
    feeBps := 0
    gasless := false
    signatureFeeLamports := 500000
    prioritizationFeeLamports := 0
    rentFeeLamports := 0
    signatureFeePayer := some userAddr
    prioritizationFeePayer := some userAddr
    rentFeePayer := some userAddr
    inUsdValue := 200
    outUsdValue := 397 / 2
    priceImpact := 0
    transaction := some "base64swaptx"
    errorCode := none }

/-- The breakdown the code computes for Scenario A with a SOL price of 100. -/
def scenarioABreakdown : CostBreakdown :=
  { platformFeeBps := 0
    platformFeePct := 0
    feeTokenName := some "TKY"
    isInputFee := false
    networkFeeSol := 1 / 2000
    networkFeeUsd := 1 / 20
    networkFeeKnown := true
    isGasless := false
    swapValueChange := -(3 / 2)
    totalCost := -(29 / 20)
    totalCostPct := -(29 / 40)
    priceImpact := 0 }

/-- The Scenario B cost basis record: 15 USD per unit of token X. -/
def scenarioBRecord : StoredCostBasis :=
  { tokenAddress := "TokenX1111111111111111111111111111111111111"
    costBasisUSD := 15
    tokenName := "Token X"
    tokenSymbol := "TKX" }

/-- The metrics the code computes for Scenario B (trade amount 10, the
Scenario A quote and breakdown): total cost basis 150, gain 48.45, 32.3%. -/
def scenarioBMetrics : CostBasisMetrics :=
  { costBasisPerToken := 15
    totalCostBasis := 150
    realizedGainLoss := 969 / 20
    gainLossPercentage := .num (323 / 10) }

/-- A cost basis record with a zero per-unit cost (airdropped token). -/
def zeroBasisRecord : StoredCostBasis :=
  { tokenAddress := "TokenX1111111111111111111111111111111111111"
    costBasisUSD := 0
    tokenName := "Token X"
    tokenSymbol := "TKX" }

/-- The Scenario A quote with only the signature fee component attributed:
the other two fee-payer fields are undefined. -/
def partialFeeQuote : JupiterOrderResponse :=
  { scenarioAQuote with
    prioritizationFeePayer := none
    rentFeePayer := none }

/-- A degenerate zero-value quote: both USD valuations are 0 and no fee is
charged (Scenario D). -/
def zeroValueQuote : JupiterOrderResponse :=
  { scenarioAQuote with
    inUsdValue := 0
    outUsdValue := 0
    signatureFeeLamports := 0 }

/-- The Scenario A quote with no fee-payer attribution at all. -/
def allUndefQuote : JupiterOrderResponse :=
  { scenarioAQuote with
    signatureFeePayer := none
    prioritizationFeePayer := none
    rentFeePayer := none }

/-- The breakdown the code computes for Scenario A when the SOL price is
unavailable: the USD network fee silently becomes 0. -/
def noPriceBreakdown : CostBreakdown :=
  { platformFeeBps := 0
    platformFeePct := 0
    feeTokenName := some "TKY"
    isInputFee := false
    networkFeeSol := 1 / 2000
    networkFeeUsd := 0
    networkFeeKnown := true
    isGasless := false
    swapValueChange := -(3 / 2)
    totalCost := -(3 / 2)
    totalCostPct := -(3 / 4)
    priceImpact := 0 }

/-- The breakdown the code computes for the zero-value quote with no
selected tokens, no account and no SOL price. -/
def zeroValueBreakdown : CostBreakdown :=
  { platformFeeBps := 0
    platformFeePct := 0
    feeTokenName := none
    isInputFee := false
    networkFeeSol := 0
    networkFeeUsd := 0
    networkFeeKnown := true
    isGasless := false
    swapValueChange := 0
    totalCost := 0
    totalCostPct := 0
    priceImpact := 0 }

/-- A concrete holdings response: two wrapped-SOL token accounts and one
token account of another mint. -/
def demoTokens : List (String × List ℕ) :=
  [(solMint, [7, 3]), ("mintA", [2])]

/-- Lookup misses every association list whose keys avoid the key. -/
theorem assocLookup_eq_none {α : Type} (k : String)
    (m : List (String × α)) (h : k ∉ m.map Prod.fst) :
    assocLookup k m = none := by
  induction m with
  | nil => rfl
  | cons p rest ih =>
    simp only [List.map_cons, List.mem_cons] at h
    push_neg at h
    have hne : ¬ p.1 = k := fun hk => h.1 hk.symm
    simp only [assocLookup, if_neg hne, ih h.2]

/-- The keys of `mapInsertAdd`: unchanged when the key is present, the key
appended at the end when it is new. -/
theorem keys_mapInsertAdd (m : List (String × ℕ)) (k : String) (v : ℕ) :
    (mapInsertAdd m k v).map Prod.fst =
      if k ∈ m.map Prod.fst then m.map Prod.fst else m.map Prod.fst ++ [k] := by
  induction m with
  | nil => simp [mapInsertAdd]
  | cons p rest ih =>
    by_cases hpk : p.1 = k
    · simp [mapInsertAdd, hpk]
    · have hk : ¬ k = p.1 := fun h => hpk h.symm
      simp only [mapInsertAdd, if_neg hpk, List.map_cons, List.mem_cons, ih]
      by_cases hmem : k ∈ rest.map Prod.fst
      · simp [hmem, hk]
      · simp [hmem, hk]

/-- `mapInsertAdd` preserves distinctness of keys. -/
theorem nodup_keys_mapInsertAdd (m : List (String × ℕ)) (k : String) (v : ℕ)
    (h : (m.map Prod.fst).Nodup) : ((mapInsertAdd m k v).map Prod.fst).Nodup := by
  rw [keys_mapInsertAdd]
  by_cases hmem : k ∈ m.map Prod.fst
  · simpa [hmem] using h
  · rw [if_neg hmem]
    simp [List.nodup_append, h, hmem]

/-- Reading the inserted key of `mapInsertAdd`: the previous value (0 when
absent) plus the added value. -/
theorem assocLookup_mapInsertAdd_self (m : List (String × ℕ)) (k : String) (v : ℕ) :
    assocLookup k (mapInsertAdd m k v) = some ((assocLookup k m).getD 0 + v) := by
  induction m with
  | nil => simp [mapInsertAdd, assocLookup]
  | cons p rest ih =>
    by_cases hpk : p.1 = k
    · simp [mapInsertAdd, assocLookup, hpk]
    · simp [mapInsertAdd, assocLookup, hpk, ih]

/-- Reading another key of `mapInsertAdd`: unchanged. -/
theorem assocLookup_mapInsertAdd_other (m : List (String × ℕ)) (k k2 : String)
    (v : ℕ) (h : k2 ≠ k) :
    assocLookup k2 (mapInsertAdd m k v) = assocLookup k2 m := by
  have hne : ¬ k = k2 := fun hk => h hk.symm
  induction m with
  | nil => simp [mapInsertAdd, assocLookup, hne]
  | cons p rest ih =>
    by_cases hpk : p.1 = k
    · subst hpk
      have hp2 : ¬ p.1 = k2 := fun hk => h hk.symm
      simp [mapInsertAdd, assocLookup, hp2]
    · by_cases hpk2 : p.1 = k2
      · simp [mapInsertAdd, assocLookup, hpk, hpk2, h]
      · simp [mapInsertAdd, assocLookup, hpk, hpk2, ih]

/-- The holdings fold keeps keys distinct. -/
theorem nodup_keys_holdingsFold (ts : List (String × List ℕ)) :
    ∀ acc : List (String × ℕ), (acc.map Prod.fst).Nodup →
      ((ts.foldl holdingsStep acc).map Prod.fst).Nodup := by
  induction ts with
  | nil => intro acc h; simpa using h
  | cons p rest ih =>
    intro acc h
    exact ih (holdingsStep acc p) (nodup_keys_mapInsertAdd acc p.1 p.2.sum h)

/-- A key that occurs in no fold input keeps its accumulator value. -/
theorem assocLookup_holdingsFold_notMem (ts : List (String × List ℕ)) :
    ∀ (acc : List (String × ℕ)) (k : String), k ∉ ts.map Prod.fst →
      assocLookup k (ts.foldl holdingsStep acc) = assocLookup k acc := by
  induction ts with
  | nil => intro acc k _; rfl
  | cons p rest ih =>
    intro acc k h
    simp only [List.map_cons, List.mem_cons] at h
    push_neg at h
    rw [List.foldl_cons, ih (holdingsStep acc p) k h.2,
      show assocLookup k (holdingsStep acc p) = assocLookup k acc from
        assocLookup_mapInsertAdd_other acc p.1 k p.2.sum h.1]

/-- A key occurring once among the fold inputs ends at its accumulator value
(0 when absent) plus the sum of its token account amounts. -/
theorem assocLookup_holdingsFold_mem (ts : List (String × List ℕ)) :
    ∀ (acc : List (String × ℕ)) (k : String) (accts : List ℕ),
      (ts.map Prod.fst).Nodup → (k, accts) ∈ ts →
      assocLookup k (ts.foldl holdingsStep acc) =
        some ((assocLookup k acc).getD 0 + accts.sum) := by
  induction ts with
  | nil => intro acc k accts _ hmem; cases hmem
  | cons p rest ih =>
    intro acc k accts hnd hmem
    simp only [List.map_cons, List.nodup_cons] at hnd
    rcases List.mem_cons.mp hmem with heq | hrest
    · subst heq
      rw [List.foldl_cons,
        assocLookup_holdingsFold_notMem rest (holdingsStep acc (k, accts)) k hnd.1]
      exact assocLookup_mapInsertAdd_self acc k accts.sum
    · have hk : k ≠ p.1 := by
        intro hkp
        exact hnd.1 (hkp ▸ List.mem_map_of_mem Prod.fst hrest)
      rw [List.foldl_cons, ih (holdingsStep acc p) k accts hnd.2 hrest,
        show assocLookup k (holdingsStep acc p) = assocLookup k acc from
          assocLookup_mapInsertAdd_other acc p.1 k p.2.sum hk]

/-- Claim C1: for every quote the cost breakdown computes
`swapValueChange = outUsdValue - inUsdValue` and
`totalCost = swapValueChange + networkFeeUsd`, the platform fee being
reported (`platformFeeBps`) but not added a second time into the total; on
the Scenario A quote (inUsdValue 200, outUsdValue 198.50, known network fee
0.05 USD) this yields value change -1.50, total cost -1.45 and total cost
percent -0.725. -/
theorem costBreakdown_total_cost_formula :
    (∀ (q : JupiterOrderResponse) (iT oT : Option JupiterToken)
        (acct : Option String) (sp : Option ℚ) (b : CostBreakdown),
        costBreakdown (some q) iT oT acct sp = some b →
          b.swapValueChange = q.outUsdValue - q.inUsdValue ∧
          b.totalCost = b.swapValueChange + b.networkFeeUsd ∧
          b.platformFeeBps = q.feeBps) ∧
    (costBreakdown (some scenarioAQuote) (some tokenX) (some tokenY)
        (some userAddr) (some 100)).map
        (fun b => (b.swapValueChange, b.totalCost, b.totalCostPct, b.networkFeeUsd)) =
      some (-(3 / 2), -(29 / 20), -(29 / 40), 1 / 20) := by
  constructor
  · intro q iT oT acct sp b h
    simp only [costBreakdown, Option.some.injEq] at h
    subst h
    exact ⟨rfl, rfl, rfl⟩
  · norm_num [costBreakdown, scenarioAQuote, tokenX, tokenY, userAddr]

/-- Witness for C1: the Scenario A breakdown satisfies the formulas. -/
theorem costBreakdown_total_cost_formula_witness :
    scenarioABreakdown.swapValueChange =
        scenarioAQuote.outUsdValue - scenarioAQuote.inUsdValue ∧
    scenarioABreakdown.totalCost =
        scenarioABreakdown.swapValueChange + scenarioABreakdown.networkFeeUsd ∧
    scenarioABreakdown.platformFeeBps = scenarioAQuote.feeBps :=
  costBreakdown_total_cost_formula.1 scenarioAQuote (some tokenX) (some tokenY)
    (some userAddr) (some 100) scenarioABreakdown (by
      norm_num [costBreakdown, scenarioAQuote, scenarioABreakdown, tokenX,
        tokenY, userAddr]
      decide)

/-- Claim C8: reading the cost basis store never throws — the store readers
are total functions; unavailable storage or malformed JSON yields the empty
record set from `getCostBasisData` and `none` from `getCostBasisForToken`,
and a token address with no stored record yields `none`. -/
theorem costBasis_read_total :
    getCostBasisData .unavailable = [] ∧
    getCostBasisData .malformed = [] ∧
    (∀ a, getCostBasisForToken .unavailable a = none) ∧
    (∀ a, getCostBasisForToken .malformed a = none) ∧
    (∀ (entries : List (String × StoredCostBasis)) (a : String),
        a ∉ entries.map Prod.fst →
        getCostBasisForToken (.stored entries) a = none) := by
  refine ⟨rfl, rfl, fun a => rfl, fun a => rfl, fun entries a h => ?_⟩
  exact assocLookup_eq_none a entries h

/-- Witness for C8: lookup of an unstored address in a one-entry store. -/
theorem costBasis_read_total_witness :
    getCostBasisForToken
        (.stored [("TokenX1111111111111111111111111111111111111", scenarioBRecord)])
        "TokenZ1111111111111111111111111111111111111" = none :=
  costBasis_read_total.2.2.2.2
    [("TokenX1111111111111111111111111111111111111", scenarioBRecord)]
    "TokenZ1111111111111111111111111111111111111" (by decide)

/-- Claim C10: the swap-direction toggle exchanges the input and output token
selections, leaves every other state atom (amount, debounced amount, modal
mode) unchanged, and applied twice restores the original state. -/
theorem handleSwapTokens_involution (s : SwapPageState) :
    handleSwapTokens (handleSwapTokens s) = s ∧
    (handleSwapTokens s).inputToken = s.outputToken ∧
    (handleSwapTokens s).outputToken = s.inputToken ∧
    (handleSwapTokens s).amount = s.amount ∧
    (handleSwapTokens s).debouncedAmount = s.debouncedAmount ∧
    (handleSwapTokens s).selectMode = s.selectMode :=
  ⟨rfl, rfl, rfl, rfl, rfl, rfl⟩

/-- Claim C2: when a cost basis record, a quote and a positive parsed trade
amount are present, the metrics compute
`totalCostBasis = costBasisUSD * amount` and
`realizedGainLoss = outUsdValue - fees - totalCostBasis`, where `fees` is
the breakdown network fee in USD (0 when there is no breakdown; the
platform fee is not subtracted separately); on Scenario B (cost basis 15,
amount 10, the Scenario A quote and breakdown) this yields total cost basis
150, gain 48.45 and 32.3 percent. -/
theorem costBasisMetrics_gain_loss_formula :
    (∀ (cb : StoredCostBasis) (q : JupiterOrderResponse) (amt : ℚ)
        (bd : Option CostBreakdown) (m : CostBasisMetrics),
        costBasisMetrics (some cb) (some q) (some amt) bd = some m →
          m.totalCostBasis = cb.costBasisUSD * amt ∧
          m.realizedGainLoss =
            q.outUsdValue - (bd.map (fun b => b.networkFeeUsd)).getD 0 -
              m.totalCostBasis) ∧
    costBasisMetrics (some scenarioBRecord) (some scenarioAQuote) (some 10)
        (some scenarioABreakdown) = some scenarioBMetrics := by
  constructor
  · intro cb q amt bd m h
    simp only [costBasisMetrics] at h
    by_cases hle : amt ≤ 0
    · simp [hle] at h
    · simp only [if_neg hle, Option.some.injEq] at h
      subst h
      exact ⟨rfl, rfl⟩
  · norm_num [costBasisMetrics, scenarioBRecord, scenarioAQuote,
      scenarioABreakdown, scenarioBMetrics, jsDiv, jsMul100]

/-- Witness for C2: the Scenario B metrics satisfy the formulas. -/
theorem costBasisMetrics_gain_loss_formula_witness :
    scenarioBMetrics.totalCostBasis = scenarioBRecord.costBasisUSD * 10 ∧
    scenarioBMetrics.realizedGainLoss =
      scenarioAQuote.outUsdValue -
        ((some scenarioABreakdown).map (fun b => b.networkFeeUsd)).getD 0 -
        scenarioBMetrics.totalCostBasis :=
  costBasisMetrics_gain_loss_formula.1 scenarioBRecord scenarioAQuote 10
    (some scenarioABreakdown) scenarioBMetrics
    costBasisMetrics_gain_loss_formula.2

/-- Claim C4, code behaviour at the failing input: with a zero cost basis
record and trade amount 10 the code does return `totalCostBasis = 0`, but it
divides by that total without a guard, so the gain/loss percentage is the
JavaScript Infinity rather than an undefined sentinel. -/
theorem zero_cost_basis_percentage_is_infinity :
    costBasisMetrics (some zeroBasisRecord) (some scenarioAQuote) (some 10)
        (some scenarioABreakdown) =
      some { costBasisPerToken := 0, totalCostBasis := 0,
             realizedGainLoss := 3969 / 20, gainLossPercentage := .posInf } := by
  norm_num [costBasisMetrics, zeroBasisRecord, scenarioAQuote,
    scenarioABreakdown, jsDiv, jsMul100]

/-- Claim C5 counterexample: on the zero-value quote the code returns the
plain rational 0 for `totalCostPct`, indistinguishable from a genuine zero
percentage, while the specification rule returns the `none` sentinel for
the same total cost and input value. -/
theorem totalCostPct_zero_input_counterexample :
    (costBreakdown (some zeroValueQuote) none none none none).map
        (fun b => b.totalCostPct) = some 0 ∧
    totalCostPctSpec 0 zeroValueQuote.inUsdValue = none := by
  constructor
  · norm_num [costBreakdown, zeroValueQuote, scenarioAQuote]
  · norm_num [totalCostPctSpec, zeroValueQuote, scenarioAQuote]

/-- Claim C5 amended: for every quote with `inUsdValue = 0` the breakdown
reports `totalCostPct` as the plain number 0 — the guard keeps the division
from happening, so never Infinity or NaN, but the result is a number, not
an undefined sentinel. -/
theorem totalCostPct_zero_input_is_zero :
    ∀ (q : JupiterOrderResponse) (iT oT : Option JupiterToken)
      (acct : Option String) (sp : Option ℚ) (b : CostBreakdown),
      q.inUsdValue = 0 →
      costBreakdown (some q) iT oT acct sp = some b →
      b.totalCostPct = 0 := by
  intro q iT oT acct sp b h0 h
  simp only [costBreakdown, Option.some.injEq] at h
  subst h
  simp [h0]

/-- Witness for the amended C5 at the zero-value quote. -/
theorem totalCostPct_zero_input_is_zero_witness :
    zeroValueBreakdown.totalCostPct = 0 :=
  totalCostPct_zero_input_is_zero zeroValueQuote none none none none
    zeroValueBreakdown (by norm_num [zeroValueQuote, scenarioAQuote])
    (by
      norm_num [costBreakdown, zeroValueQuote, scenarioAQuote,
        zeroValueBreakdown, userAddr]
      decide)

/-- Claim C6 counterexample: on the Scenario A quote with the SOL price
unavailable, the network fee is known (all payers attributed) and non-zero
in SOL, yet the breakdown reports the plain number 0 for `networkFeeUsd`
and leaves `networkFeeKnown = true`: nothing marks the USD fee unknown. -/
theorem networkFeeUsd_missing_price_counterexample :
    (costBreakdown (some scenarioAQuote) (some tokenX) (some tokenY)
        (some userAddr) none).map
      (fun b => (b.networkFeeUsd, b.networkFeeKnown, b.networkFeeSol)) =
      some (0, true, 1 / 2000) := by
  norm_num [costBreakdown, scenarioAQuote, tokenX, tokenY, userAddr]
  decide

/-- Claim C6 amended: when the gas-asset USD price is unavailable, the
breakdown always reports `networkFeeUsd` as the plain number 0 (even for a
known non-zero fee) and `networkFeeKnown` keeps reflecting only the
fee-payer attribution; the missing price is not marked. -/
theorem networkFeeUsd_missing_price_is_zero :
    ∀ (q : JupiterOrderResponse) (iT oT : Option JupiterToken)
      (acct : Option String) (b : CostBreakdown),
      costBreakdown (some q) iT oT acct none = some b →
      b.networkFeeUsd = 0 ∧
      (b.networkFeeKnown = true ↔
        (q.signatureFeePayer ≠ none ∧ q.prioritizationFeePayer ≠ none ∧
          q.rentFeePayer ≠ none)) := by
  intro q iT oT acct b h
  simp only [costBreakdown, Option.some.injEq] at h
  subst h
  exact ⟨rfl, by simp⟩

/-- Witness for the amended C6 at the Scenario A quote without a price. -/
theorem networkFeeUsd_missing_price_is_zero_witness :
    noPriceBreakdown.networkFeeUsd = 0 ∧
    (noPriceBreakdown.networkFeeKnown = true ↔
      (scenarioAQuote.signatureFeePayer ≠ none ∧
        scenarioAQuote.prioritizationFeePayer ≠ none ∧
        scenarioAQuote.rentFeePayer ≠ none)) :=
  networkFeeUsd_missing_price_is_zero scenarioAQuote (some tokenX)
    (some tokenY) (some userAddr) noPriceBreakdown (by
      norm_num [costBreakdown, scenarioAQuote, noPriceBreakdown, tokenX,
        tokenY, userAddr]
      decide)

/-- Claim C3 counterexample: a quote whose signature fee is attributed while
the other two fee-payer fields are undefined is not all-undefined, yet the
breakdown reports `networkFeeKnown = false` — the code requires all three
attributions to be defined, not at least one. -/
theorem networkFeeKnown_partial_attribution_counterexample :
    ¬(partialFeeQuote.signatureFeePayer = none ∧
      partialFeeQuote.prioritizationFeePayer = none ∧
      partialFeeQuote.rentFeePayer = none) ∧
    (costBreakdown (some partialFeeQuote) none none (some userAddr) none).map
      (fun b => b.networkFeeKnown) = some false := by
  constructor
  · decide
  · simp only [costBreakdown, Option.map_some]
    decide

/-- Claim C3 amended: the fee resolution is a total function (never throws);
with a transaction and a connected account, the three attributions all
undefined make `userFeeLamports` null (unusable); otherwise
`userFeeLamports` is the sum of the fee components whose attributed payer
equals the account; and `networkFeeKnown` is true exactly when all three
attributions are defined, so partial attribution still reports false. -/
theorem resolveNetworkFee_attribution :
    (∀ (q : JupiterOrderResponse) (addr tx : String),
        q.transaction = some tx →
        q.signatureFeePayer = none → q.prioritizationFeePayer = none →
        q.rentFeePayer = none →
        userFeeLamports (some q) (some addr) = none) ∧
    (∀ (q : JupiterOrderResponse) (addr tx : String),
        q.transaction = some tx →
        ¬(q.signatureFeePayer = none ∧ q.prioritizationFeePayer = none ∧
          q.rentFeePayer = none) →
        userFeeLamports (some q) (some addr) =
          some ((if q.signatureFeePayer = some addr
                  then q.signatureFeeLamports else 0)
            + (if q.prioritizationFeePayer = some addr
                  then q.prioritizationFeeLamports else 0)
            + (if q.rentFeePayer = some addr then q.rentFeeLamports else 0))) ∧
    (∀ (q : JupiterOrderResponse) (iT oT : Option JupiterToken)
        (acct : Option String) (sp : Option ℚ) (b : CostBreakdown),
        costBreakdown (some q) iT oT acct sp = some b →
        (b.networkFeeKnown = true ↔
          (q.signatureFeePayer ≠ none ∧ q.prioritizationFeePayer ≠ none ∧
            q.rentFeePayer ≠ none))) := by
  refine ⟨?_, ?_, ?_⟩
  · intro q addr tx htx h1 h2 h3
    simp [userFeeLamports, htx, h1, h2, h3]
  · intro q addr tx htx hne
    simp only [userFeeLamports, htx]
    rw [if_neg hne]
  · intro q iT oT acct sp b h
    simp only [costBreakdown, Option.some.injEq] at h
    subst h
    simp

/-- Witness for the amended C3: the all-undefined quote resolves to null,
the partially attributed quote resolves to the attributed sum, and the
Scenario A breakdown knows its fee. -/
theorem resolveNetworkFee_attribution_witness :
    userFeeLamports (some allUndefQuote) (some userAddr) = none ∧
    userFeeLamports (some partialFeeQuote) (some userAddr) =
      some ((if partialFeeQuote.signatureFeePayer = some userAddr
              then partialFeeQuote.signatureFeeLamports else 0)
        + (if partialFeeQuote.prioritizationFeePayer = some userAddr
              then partialFeeQuote.prioritizationFeeLamports else 0)
        + (if partialFeeQuote.rentFeePayer = some userAddr
              then partialFeeQuote.rentFeeLamports else 0)) ∧
    (scenarioABreakdown.networkFeeKnown = true ↔
      (scenarioAQuote.signatureFeePayer ≠ none ∧
        scenarioAQuote.prioritizationFeePayer ≠ none ∧
        scenarioAQuote.rentFeePayer ≠ none)) :=
  ⟨resolveNetworkFee_attribution.1 allUndefQuote userAddr "base64swaptx"
      rfl rfl rfl rfl,
   resolveNetworkFee_attribution.2.1 partialFeeQuote userAddr "base64swaptx"
      rfl (by decide),
   resolveNetworkFee_attribution.2.2 scenarioAQuote (some tokenX)
      (some tokenY) (some userAddr) (some 100) scenarioABreakdown (by
        norm_num [costBreakdown, scenarioAQuote, scenarioABreakdown, tokenX,
          tokenY, userAddr]
        decide)⟩

/-- Claim C7, code behaviour at the failing input: the positive amount
1 / 10 ^ 10 with the 6-decimal input token floors to 0 native units, the
memo renders it as the truthy string "0", and the quote query is therefore
enabled — a zero-amount quote request is issued instead of an invalid-amount
rejection. -/
theorem dust_amount_enables_zero_quote :
    nativeAmount (some (1 / 10 ^ 10)) (some tokenX) = some "0" ∧
    quoteEnabled (some tokenX) (some tokenY)
      (nativeAmount (some (1 / 10 ^ 10)) (some tokenX)) = true := by
  have hfloor : Int.floor ((1 / 10 ^ 10 : ℚ) * 10 ^ tokenX.decimals) = 0 := by
    norm_num [tokenX]
  have hna : nativeAmount (some (1 / 10 ^ 10)) (some tokenX) = some "0" := by
    simp only [nativeAmount]
    rw [if_neg (by norm_num), hfloor]
    decide
  exact ⟨hna, by rw [quoteEnabled, hna]; decide⟩

/-- Claim C9: the wallet-holdings aggregation lists each mint at most once;
when the response keys are distinct, each mint maps to the sum of the
amounts of its token accounts, with the native SOL balance added for the
wrapped-SOL mint when it appears among the token accounts, and the
wrapped-SOL entry holds exactly the native balance when it does not. -/
theorem getWalletHoldings_aggregation :
    (∀ (native : ℕ) (tokens : List (String × List ℕ)),
        ((getWalletHoldings native tokens).map Prod.fst).Nodup) ∧
    (∀ (native : ℕ) (tokens : List (String × List ℕ)) (mint : String)
        (accts : List ℕ),
        (tokens.map Prod.fst).Nodup → (mint, accts) ∈ tokens →
        assocLookup mint (getWalletHoldings native tokens) =
          some ((if mint = solMint then native else 0) + accts.sum)) ∧
    (∀ (native : ℕ) (tokens : List (String × List ℕ)),
        solMint ∉ tokens.map Prod.fst →
        assocLookup solMint (getWalletHoldings native tokens) = some native) := by
  refine ⟨?_, ?_, ?_⟩
  · intro native tokens
    exact nodup_keys_holdingsFold tokens [(solMint, native)] (by simp)
  · intro native tokens mint accts hnd hmem
    rw [getWalletHoldings,
      assocLookup_holdingsFold_mem tokens [(solMint, native)] mint accts hnd hmem]
    by_cases h : mint = solMint
    · simp [assocLookup, h]
    · simp [assocLookup, h, Ne.symm h]
  · intro native tokens h
    rw [getWalletHoldings,
      assocLookup_holdingsFold_notMem tokens [(solMint, native)] solMint h]
    simp [assocLookup]

/-- Witness for C9 on a concrete holdings response with two wrapped-SOL
token accounts (7 and 3) plus native balance 5, and one other mint. -/
theorem getWalletHoldings_aggregation_witness :
    ((getWalletHoldings 5 demoTokens).map Prod.fst).Nodup ∧
    assocLookup solMint (getWalletHoldings 5 demoTokens) =
      some ((if solMint = solMint then 5 else 0) + [7, 3].sum) ∧
    assocLookup "mintA" (getWalletHoldings 5 demoTokens) =
      some ((if "mintA" = solMint then 5 else 0) + [2].sum) ∧
    assocLookup solMint (getWalletHoldings 9 []) = some 9 :=
  ⟨getWalletHoldings_aggregation.1 5 demoTokens,
   getWalletHoldings_aggregation.2.1 5 demoTokens solMint [7, 3]
      (by decide) (by decide),
   getWalletHoldings_aggregation.2.1 5 demoTokens "mintA" [2]
      (by decide) (by decide),
   getWalletHoldings_aggregation.2.2 9 [] (by decide)⟩

end Swapsies
